import Mathlib

/- Verification development for the mirror_project repository: the pose data model
and overlay renderer (src/overlay.py, src/body_tracking.py), the capture session
lifecycle (src/capture.py), and the calibration store (src/calibration.py).
External libraries are modelled at the granularity the code uses them: numpy archive
entries, drawing calls and SDK frame delivery are explicit values, and in-place
mutation in the Python code becomes explicit state passing. -/

namespace Mirror

/-- Truncation toward zero, the conversion performed by ndarray astype int. -/
def npTrunc (q : ℚ) : ℤ := if q < 0 then ⌈q⌉ else ⌊q⌋

/-- A single pose landmark in normalized coordinates (body_tracking.PoseLandmark). -/
structure PoseLandmark where
  x : ℚ
  y : ℚ
  z : ℚ
  visibility : ℚ
deriving DecidableEq

/-- Detected pose landmarks for one frame (body_tracking.PoseResult). -/
structure PoseResult where
  landmarks : List PoseLandmark
  image_height : ℕ
  image_width : ℕ
deriving DecidableEq

/-- Model of the numpy arrays arising from PoseResult.as_ndarray: np.array applied
to an empty list yields a one-dimensional empty array, while a nonempty list of
equal-length rows yields a two-dimensional array. -/
inductive NdArray where
  | oneD (data : List ℚ)
  | twoD (rows : List (List ℚ))
deriving DecidableEq

/-- body_tracking.PoseResult.as_ndarray: np.array with one row of
x, y, z, visibility per landmark. -/
def PoseResult.as_ndarray (p : PoseResult) : NdArray :=
  match p.landmarks with
  | [] => NdArray.oneD []
  | ls => NdArray.twoD (ls.map (fun lm => [lm.x, lm.y, lm.z, lm.visibility]))

/-- The numpy error raised when a one-dimensional array is indexed with two indices,
as in points[:, 0] on the empty as_ndarray result. -/
def oneDimErrMsg : String := "too many indices for array: array is 1-dimensional, but 2 were indexed"

/-- Column extraction a[:, j] on the modelled ndarray. On a one-dimensional array
numpy raises an IndexError; on a two-dimensional array it selects entry j of
every row. -/
def NdArray.col (a : NdArray) (j : ℕ) : Except String (List ℚ) :=
  match a with
  | NdArray.oneD _ => Except.error oneDimErrMsg
  | NdArray.twoD rows =>
    if rows.all (fun row => decide (j < row.length)) then
      Except.ok (rows.map (fun row => row.getD j 0))
    else
      Except.error "index out of bounds"

/-- overlay.OverlayColors with its default BGR values. -/
structure OverlayColors where
  skeleton : ℕ × ℕ × ℕ := (0, 255, 0)
  joints : ℕ × ℕ × ℕ := (0, 128, 255)
deriving DecidableEq

/-- overlay.OverlayRenderer: carries the color configuration; the skeleton
connection map is always the fixed table defaultPairs below, exactly as
OverlayRenderer.__init__ installs _default_pairs unconditionally. -/
structure OverlayRenderer where
  colors : OverlayColors := {}
deriving DecidableEq

/-- overlay.OverlayRenderer._default_pairs: the fixed skeleton connection map. -/
def defaultPairs : List (ℕ × ℕ) :=
  [(11, 12), (12, 14), (14, 16), (11, 13), (13, 15),
   (11, 23), (12, 24), (23, 25), (25, 27), (24, 26), (26, 28)]

/-- The coords computation at the top of OverlayRenderer.render:
np.column_stack of the x column scaled by image_width and the y column scaled by
image_height, then astype(int) truncation toward zero. -/
def renderCoords (pose : PoseResult) : Except String (List (ℤ × ℤ)) := do
  let xs ← pose.as_ndarray.col 0
  let ys ← pose.as_ndarray.col 1
  Except.ok (List.zip (xs.map (fun x => npTrunc (x * (pose.image_width : ℚ))))
                      (ys.map (fun y => npTrunc (y * (pose.image_height : ℚ)))))

/-- A cv2 drawing call applied to a frame buffer. cv2.line and cv2.circle write
pixels in place and never change the buffer shape; we record the calls applied to
a frame, leaving rasterization to the external library. -/
inductive DrawOp where
  | line (p : ℤ × ℤ) (q : ℤ × ℤ) (color : ℕ × ℕ × ℕ) (thickness : ℕ)
  | circle (center : ℤ × ℤ) (radius : ℕ) (color : ℕ × ℕ × ℕ) (thickness : ℤ)
deriving DecidableEq

/-- A BGR image buffer: the raw pixel grid plus the drawing calls applied on top. -/
structure Frame where
  base : List (List (ℕ × ℕ × ℕ))
  ops : List DrawOp := []
deriving DecidableEq

/-- Row count of the buffer, shape[0]. -/
def Frame.height (f : Frame) : ℕ := f.base.length

/-- Column count of the buffer, shape[1]. -/
def Frame.width (f : Frame) : ℕ := (f.base.headD []).length

/-- overlay.OverlayRenderer.render. The Python code copies the input frame and then
mutates only the copy with cv2 calls; the embedding makes the mutation explicit by
returning both the annotated copy and the value of the input frame after the call.
Edges whose endpoint index is outside the coords length are skipped. -/
def OverlayRenderer.render (r : OverlayRenderer) (frame : Frame) (pose : PoseResult) :
    Except String (Frame × Frame) := do
  let coords ← renderCoords pose
  let annotated := frame
  let annotated := defaultPairs.foldl
    (fun acc se =>
      if se.1 ≥ coords.length ∨ se.2 ≥ coords.length then acc
      else { acc with ops := acc.ops ++
        [DrawOp.line (coords.getD se.1 (0, 0)) (coords.getD se.2 (0, 0)) r.colors.skeleton 2] })
    annotated
  let annotated := coords.foldl
    (fun acc c => { acc with ops := acc.ops ++ [DrawOp.circle c 4 r.colors.joints (-1)] })
    annotated
  Except.ok (annotated, frame)

/-- overlay.OverlayRenderer.render_sequence: a generator zipping the two sequences;
a None pose yields the frame itself, otherwise the render result is yielded. An
exception inside render aborts the generator, so the embedding returns the list of
frames yielded before the abort together with the raised error, if any. -/
def OverlayRenderer.render_sequence (r : OverlayRenderer) :
    List Frame → List (Option PoseResult) → List Frame × Option String
  | f :: fs, p :: ps =>
    match p with
    | none =>
      let rest := r.render_sequence fs ps
      (f :: rest.1, rest.2)
    | some pose =>
      match r.render f pose with
      | Except.error e => ([], some e)
      | Except.ok (a, _) =>
        let rest := r.render_sequence fs ps
        (a :: rest.1, rest.2)
  | _, _ => ([], none)

/-- Closed form of the successful coords computation: one integer pixel pair per
landmark, its normalized position scaled by the recorded image size. -/
def pixelCoords (pose : PoseResult) : List (ℤ × ℤ) :=
  pose.landmarks.map (fun lm =>
    (npTrunc (lm.x * (pose.image_width : ℚ)), npTrunc (lm.y * (pose.image_height : ℚ))))

/-- The line calls produced by folding the edge list ps over a frame: one line in
the given color per edge whose two endpoint indices are both inside cs. -/
def lineOpsFor (cs : List (ℤ × ℤ)) (sk : ℕ × ℕ × ℕ) (ps : List (ℕ × ℕ)) : List DrawOp :=
  (ps.filter (fun se => decide (se.1 < cs.length ∧ se.2 < cs.length))).map
    (fun se => DrawOp.line (cs.getD se.1 (0, 0)) (cs.getD se.2 (0, 0)) sk 2)

/-- The circle calls produced by the joint loop: one filled circle per coordinate. -/
def circleOpsFor (jc : ℕ × ℕ × ℕ) (cs : List (ℤ × ℤ)) : List DrawOp :=
  cs.map (fun c => DrawOp.circle c 4 jc (-1))

/-- The skeleton lines drawn by the first loop of render: one per fixed edge whose
two endpoint indices are both inside the coordinate list. -/
def skeletonLineOps (r : OverlayRenderer) (cs : List (ℤ × ℤ)) : List DrawOp :=
  lineOpsFor cs r.colors.skeleton defaultPairs

/-- The joint circles drawn by the second loop of render: one per coordinate. -/
def jointCircleOps (r : OverlayRenderer) (cs : List (ℤ × ℤ)) : List DrawOp :=
  circleOpsFor r.colors.joints cs

/-- Closed form of the annotated frame produced by a successful render: the input
frame with the in-range skeleton lines appended and then one joint circle per
landmark. -/
def annotatedFrame (r : OverlayRenderer) (frame : Frame) (pose : PoseResult) : Frame :=
  { frame with ops := frame.ops
      ++ skeletonLineOps r (pixelCoords pose) ++ jointCircleOps r (pixelCoords pose) }

/-- capture.StreamProfile with its default values. -/
structure StreamProfile where
  width : ℕ := 848
  height : ℕ := 480
  fps : ℕ := 30
deriving DecidableEq

/-- capture.CaptureConfig with its default values; the playback file path is kept
as an abstract string. -/
structure CaptureConfig where
  color_stream : StreamProfile := {}
  depth_stream : StreamProfile := {}
  align_to_color : Bool := true
  playback_file : Option String := none
deriving DecidableEq

/-- Pixel formats requested by CaptureSession.start. -/
inductive RsFormat where
  | bgr8
  | z16
deriving DecidableEq

/-- The two stream kinds enabled by CaptureSession.start. -/
inductive RsStreamKind where
  | color
  | depth
deriving DecidableEq

/-- The rs.config value that CaptureSession.start builds and passes to
pipeline.start: the enabled streams in order, and the optional playback device
with its repeat flag. -/
structure RsConfig where
  streams : List (RsStreamKind × ℕ × ℕ × RsFormat × ℕ) := []
  deviceFromFile : Option (String × Bool) := none
deriving DecidableEq

/-- The configuration built inside CaptureSession.start: color as bgr8 and depth
as z16 at the configured sizes, plus enable_device_from_file with
repeat_playback=True when a playback file is set. -/
def buildStartConfig (c : CaptureConfig) : RsConfig :=
  { streams :=
      [ (RsStreamKind.color, c.color_stream.width, c.color_stream.height, RsFormat.bgr8,
          c.color_stream.fps),
        (RsStreamKind.depth, c.depth_stream.width, c.depth_stream.height, RsFormat.z16,
          c.depth_stream.fps) ],
    deviceFromFile :=
      match c.playback_file with
      | some p => some (p, true)
      | none => none }

/-- capture.CaptureSession state. The embedding records the observable device
interactions: every pipeline.start call with the configuration it received, and
the number of pipeline.stop calls. The align processor exists exactly when the
configuration requests alignment, as in __init__. -/
structure CaptureSession where
  config : CaptureConfig
  alignEnabled : Bool
  started : Bool
  pipelineStarts : List RsConfig
  pipelineStops : ℕ
deriving DecidableEq

/-- CaptureSession.__init__: not started, no device interaction yet. -/
def newSession (c : CaptureConfig) : CaptureSession :=
  { config := c, alignEnabled := c.align_to_color, started := false,
    pipelineStarts := [], pipelineStops := 0 }

/-- capture.CaptureSession.start: returns immediately when already started,
otherwise builds the configuration, starts the pipeline and records the session
as started. -/
def CaptureSession.start (s : CaptureSession) : CaptureSession :=
  if s.started then s
  else { s with started := true, pipelineStarts := s.pipelineStarts ++ [buildStartConfig s.config] }

/-- capture.CaptureSession.stop: returns immediately when not started, otherwise
stops the pipeline and records the session as stopped. -/
def CaptureSession.stop (s : CaptureSession) : CaptureSession :=
  if s.started then { s with started := false, pipelineStops := s.pipelineStops + 1 }
  else s

/-- One frameset delivered by pipeline.wait_for_frames, after which
get_color_frame and get_depth_frame may each return an invalid (missing) frame;
the payload type is abstract. -/
structure FrameSet (α : Type) where
  colorFrame : Option α
  depthFrame : Option α
deriving DecidableEq

/-- The align step inside the frames loop: align.process is applied exactly when
the session holds an align processor. -/
def processAligned {α : Type} (s : CaptureSession) (alignProcess : FrameSet α → FrameSet α)
    (fs : FrameSet α) : FrameSet α :=
  if s.alignEnabled then alignProcess fs else fs

/-- The body of the frames loop after alignment: a pair is produced only when both
components are present, otherwise the frameset is skipped. -/
def completePair {α : Type} (fs : FrameSet α) : Option (α × α) :=
  match fs.colorFrame, fs.depthFrame with
  | some c, some d => some (c, d)
  | _, _ => none

/-- The lifecycle error raised by frames on a session that is not started. -/
def lifecycleErrMsg : String := "CaptureSession must be started before requesting frames"

/-- capture.CaptureSession.frames: raises the lifecycle error when the session is
not started; otherwise, for the given finite prefix of device deliveries, yields
in order the aligned pairs whose two components are both present. The real loop
is unbounded; the embedding evaluates it over any finite delivery prefix. -/
def CaptureSession.framesFrom {α : Type} (s : CaptureSession)
    (alignProcess : FrameSet α → FrameSet α) (deliveries : List (FrameSet α)) :
    Except String (List (α × α)) :=
  if s.started then
    Except.ok (deliveries.filterMap (fun fs => completePair (processAligned s alignProcess fs)))
  else
    Except.error lifecycleErrMsg

/-- Whether the with-statement body finished normally or raised. -/
inductive ScopeExit where
  | normal
  | raised
deriving DecidableEq

/-- A lifecycle call the with-statement body may perform on the session. -/
inductive LifecycleOp where
  | callStart
  | callStop
deriving DecidableEq

def applyOp (s : CaptureSession) : LifecycleOp → CaptureSession
  | LifecycleOp.callStart => s.start
  | LifecycleOp.callStop => s.stop

/-- The with-statement over a CaptureSession: __enter__ runs start, the body
performs the lifecycle calls it reached before finishing normally or raising, and
__exit__ runs stop; the outcome does not change the cleanup path, because Python
runs __exit__ on both normal and exceptional exit. -/
def withSession (s : CaptureSession) (bodyOps : List LifecycleOp) (_outcome : ScopeExit) :
    CaptureSession :=
  let s1 := s.start
  let s2 := bodyOps.foldl applyOp s1
  s2.stop

/-- Device interactions are balanced: every recorded pipeline start is matched by
a recorded stop, except one still pending while the session is started. -/
def releaseBalanced (s : CaptureSession) : Prop :=
  s.pipelineStops + (if s.started then 1 else 0) = s.pipelineStarts.length

/-- An entry stored in an npz archive: numeric arrays are stored plainly, while
np.asanyarray(None) is a zero-dimensional object array that np.savez stores via
pickling. -/
structure NpMatrix where
  shape : List ℕ
  data : List ℚ
deriving DecidableEq

/-- calibration.CalibrationData. -/
structure CalibrationData where
  camera_matrix : NpMatrix
  distortion_coeffs : NpMatrix
  extrinsics : Option NpMatrix := none
deriving DecidableEq

/-- A value passed as a keyword argument to np.savez: an array, or Python None. -/
inductive SavezValue where
  | arr (m : NpMatrix)
  | pyNone
deriving DecidableEq

/-- What np.savez stores for one keyword argument: a numeric array is stored
plainly; None becomes a zero-dimensional object array stored via pickling. -/
inductive NpzEntry where
  | numeric (m : NpMatrix)
  | pickledObject
deriving DecidableEq

def savezEncode : SavezValue → NpzEntry
  | SavezValue.arr m => NpzEntry.numeric m
  | SavezValue.pyNone => NpzEntry.pickledObject

/-- np.savez: writes one entry per keyword argument, in order. The filesystem
layer is abstracted away: the archive contents written at the path stand for the
file. -/
def npSavez (kwargs : List (String × SavezValue)) : List (String × NpzEntry) :=
  kwargs.map (fun kv => (kv.1, savezEncode kv.2))

/-- The error np.load raises when an entry stored via pickling is read with the
default allow_pickle=False. -/
def pickleErrMsg : String := "Object arrays cannot be loaded when allow_pickle=False"

/-- Subscripting the loaded NpzFile: a missing key raises KeyError; a pickled
object entry raises ValueError under the default allow_pickle=False. -/
def npzGetItem (archive : List (String × NpzEntry)) (key : String) : Except String NpMatrix :=
  match archive.find? (fun kv => kv.1 == key) with
  | none => Except.error ("KeyError: " ++ key)
  | some kv =>
    match kv.2 with
    | NpzEntry.numeric m => Except.ok m
    | NpzEntry.pickledObject => Except.error pickleErrMsg

/-- NpzFile.get, the Mapping method used for the optional extrinsics entry:
a missing key gives the default None; a present key is loaded through the same
subscript path, so a pickled object entry still raises. -/
def npzGet (archive : List (String × NpzEntry)) (key : String) :
    Except String (Option NpMatrix) :=
  match archive.find? (fun kv => kv.1 == key) with
  | none => Except.ok none
  | some kv =>
    match kv.2 with
    | NpzEntry.numeric m => Except.ok (some m)
    | NpzEntry.pickledObject => Except.error pickleErrMsg

/-- calibration.save_calibration: np.savez with the three keyword arguments,
extrinsics passed through even when it is None. -/
def save_calibration (data : CalibrationData) : List (String × NpzEntry) :=
  npSavez
    [ ("camera_matrix", SavezValue.arr data.camera_matrix),
      ("distortion_coeffs", SavezValue.arr data.distortion_coeffs),
      ("extrinsics",
        match data.extrinsics with
        | some m => SavezValue.arr m
        | none => SavezValue.pyNone) ]

/-- calibration.load_calibration: reads the two required entries by subscript and
the optional extrinsics entry through NpzFile.get. -/
def load_calibration (archive : List (String × NpzEntry)) : Except String CalibrationData := do
  let cm ← npzGetItem archive "camera_matrix"
  let dc ← npzGetItem archive "distortion_coeffs"
  let ex ← npzGet archive "extrinsics"
  Except.ok { camera_matrix := cm, distortion_coeffs := dc, extrinsics := ex }

/-- Whether the archive contains an entry for the key. -/
def npzHasKey (archive : List (String × NpzEntry)) (key : String) : Bool :=
  (archive.find? (fun kv => kv.1 == key)).isSome

/-- cv2.cvtColor with COLOR_BGR2RGB: reverses the channel order of every pixel,
preserving the buffer shape. -/
def cvtColorBGR2RGB (f : Frame) : Frame :=
  { f with base := f.base.map (fun row => row.map (fun p => (p.2.2, p.2.1, p.1))) }

/-- body_tracking.PoseEstimator. The MediaPipe model is the external collaborator:
an abstract function from the RGB frame to detected landmarks, or none when no
body is found. -/
structure PoseEstimator where
  model : Frame → Option (List PoseLandmark)

/-- body_tracking.PoseEstimator.estimate: converts the BGR frame to RGB, runs the
model, and on detection packages the landmarks with the height and width taken
from the shape of the input frame. -/
def PoseEstimator.estimate (e : PoseEstimator) (frame : Frame) : Option PoseResult :=
  match e.model (cvtColorBGR2RGB frame) with
  | none => none
  | some lms =>
    some { landmarks := lms, image_height := frame.height, image_width := frame.width }

/- Concrete values used to exercise the definitions. -/

def defaultRenderer : OverlayRenderer := {}

def emptyPoseA : PoseResult := { landmarks := [], image_height := 4, image_width := 6 }

def emptyPoseB : PoseResult := { landmarks := [], image_height := 2, image_width := 3 }

def lmHalf : PoseLandmark := { x := 1/2, y := 1/2, z := 0, visibility := 1 }

def lmQuarter : PoseLandmark := { x := 1/4, y := 3/4, z := 0, visibility := 9/10 }

def exFrameA : Frame := { base := [[(0, 0, 0), (1, 1, 1)], [(2, 2, 2), (3, 3, 3)]] }

def exFrameB : Frame := { base := [[(9, 9, 9)]] }

def exFrameC : Frame :=
  { base := [[(1, 2, 3), (4, 5, 6), (7, 8, 9)], [(1, 1, 1), (2, 2, 2), (3, 3, 3)]] }

def exPose1 : PoseResult := { landmarks := [lmHalf, lmQuarter], image_height := 4, image_width := 6 }

def exEstimator : PoseEstimator := { model := fun _ => some [lmHalf] }

def exPoseC : PoseResult :=
  { landmarks := [lmHalf], image_height := exFrameC.height, image_width := exFrameC.width }

def mat3 : NpMatrix := { shape := [3, 3], data := [1, 0, 0, 0, 1, 0, 0, 0, 1] }

def vec5 : NpMatrix := { shape := [5], data := [0, 0, 0, 0, 0] }

def matE : NpMatrix := { shape := [4, 4], data := List.replicate 16 1 }

def exCalib : CalibrationData :=
  { camera_matrix := mat3, distortion_coeffs := vec5, extrinsics := some matE }

def cexCalib : CalibrationData :=
  { camera_matrix := mat3, distortion_coeffs := vec5, extrinsics := none }

def cfg0 : CaptureConfig := {}

def freshS : CaptureSession := newSession cfg0

def startedS : CaptureSession := freshS.start

def stoppedS : CaptureSession := startedS.stop

def exDeliveries : List (FrameSet ℕ) :=
  [⟨some 1, some 2⟩, ⟨none, some 3⟩, ⟨some 4, none⟩]

/- Helper lemmas about the embedded definitions. -/

theorem pixelCoords_length (pose : PoseResult) :
    (pixelCoords pose).length = pose.landmarks.length := by
  simp [pixelCoords]

theorem col_twoD (rows : List (List ℚ)) (j : ℕ) :
    (NdArray.twoD rows).col j
    = if rows.all (fun row => decide (j < row.length)) then
        Except.ok (rows.map (fun row => row.getD j 0))
      else Except.error "index out of bounds" := rfl

theorem col_rows (j : ℕ) (hj : j < 4) (lms : List PoseLandmark) :
    (NdArray.twoD (lms.map (fun lm => [lm.x, lm.y, lm.z, lm.visibility]))).col j
    = Except.ok (lms.map (fun lm => [lm.x, lm.y, lm.z, lm.visibility].getD j 0)) := by
  rw [col_twoD]
  have hg : (lms.map (fun lm => [lm.x, lm.y, lm.z, lm.visibility])).all
      (fun row => decide (j < row.length)) = true := by
    refine List.all_eq_true.mpr ?_
    intro row hrow
    obtain ⟨lm, _hlm, rfl⟩ := List.mem_map.mp hrow
    simpa using hj
  rw [hg]
  simp [List.map_map]

theorem renderCoords_ok (pose : PoseResult) (h : pose.landmarks ≠ []) :
    renderCoords pose = Except.ok (pixelCoords pose) := by
  obtain ⟨lms, ihh, iww⟩ := pose
  cases lms with
  | nil => exact absurd rfl h
  | cons l ls =>
    have h0 : (PoseResult.as_ndarray ⟨l :: ls, ihh, iww⟩).col 0
        = Except.ok ((l :: ls).map (fun lm => [lm.x, lm.y, lm.z, lm.visibility].getD 0 0)) :=
      col_rows 0 (by decide) (l :: ls)
    have h1 : (PoseResult.as_ndarray ⟨l :: ls, ihh, iww⟩).col 1
        = Except.ok ((l :: ls).map (fun lm => [lm.x, lm.y, lm.z, lm.visibility].getD 1 0)) :=
      col_rows 1 (by decide) (l :: ls)
    unfold renderCoords
    rw [h0, h1]
    show Except.ok (List.zip
        (((l :: ls).map (fun lm => [lm.x, lm.y, lm.z, lm.visibility].getD 0 0)).map
          (fun x => npTrunc (x * (iww : ℚ))))
        (((l :: ls).map (fun lm => [lm.x, lm.y, lm.z, lm.visibility].getD 1 0)).map
          (fun y => npTrunc (y * (ihh : ℚ)))))
      = Except.ok (pixelCoords ⟨l :: ls, ihh, iww⟩)
    rw [List.map_map, List.map_map, List.zip_map']
    rfl

theorem lines_foldl (cs : List (ℤ × ℤ)) (sk : ℕ × ℕ × ℕ) (ps : List (ℕ × ℕ)) (a : Frame) :
    ps.foldl (fun acc se =>
      if se.1 ≥ cs.length ∨ se.2 ≥ cs.length then acc
      else { acc with ops := acc.ops ++
        [DrawOp.line (cs.getD se.1 (0, 0)) (cs.getD se.2 (0, 0)) sk 2] }) a
    = { a with ops := a.ops ++ lineOpsFor cs sk ps } := by
  induction ps generalizing a with
  | nil => simp [lineOpsFor]
  | cons se ps ih =>
    rw [List.foldl_cons]
    by_cases h : se.1 ≥ cs.length ∨ se.2 ≥ cs.length
    · rw [if_pos h, ih]
      have hnot : ¬(se.1 < cs.length ∧ se.2 < cs.length) := by omega
      simp [lineOpsFor, List.filter_cons, hnot]
    · rw [if_neg h, ih]
      have hyes : se.1 < cs.length ∧ se.2 < cs.length := by
        constructor <;> omega
      simp [lineOpsFor, List.filter_cons, hyes]

theorem circles_foldl (jc : ℕ × ℕ × ℕ) (cs : List (ℤ × ℤ)) (a : Frame) :
    cs.foldl (fun acc c => { acc with ops := acc.ops ++ [DrawOp.circle c 4 jc (-1)] }) a
    = { a with ops := a.ops ++ circleOpsFor jc cs } := by
  induction cs generalizing a with
  | nil => simp [circleOpsFor]
  | cons c cs ih =>
    rw [List.foldl_cons, ih]
    simp [circleOpsFor]

theorem render_eq (r : OverlayRenderer) (frame : Frame) (pose : PoseResult)
    (h : pose.landmarks ≠ []) :
    r.render frame pose = Except.ok (annotatedFrame r frame pose, frame) := by
  unfold OverlayRenderer.render
  rw [renderCoords_ok pose h]
  simp only [bind, Except.bind]
  rw [lines_foldl, circles_foldl]
  simp [annotatedFrame, skeletonLineOps, jointCircleOps]

theorem completePair_eq_some {α : Type} (fs : FrameSet α) (p : α × α)
    (h : completePair fs = some p) :
    fs.colorFrame = some p.1 ∧ fs.depthFrame = some p.2 := by
  obtain ⟨c, d⟩ := fs
  cases c with
  | none => simp [completePair] at h
  | some cv =>
    cases d with
    | none => simp [completePair] at h
    | some dv =>
      simp [completePair] at h
      simp [← h]

theorem releaseBalanced_new (c : CaptureConfig) : releaseBalanced (newSession c) := by
  simp [releaseBalanced, newSession]

theorem releaseBalanced_start (s : CaptureSession) (h : releaseBalanced s) :
    releaseBalanced s.start := by
  unfold releaseBalanced CaptureSession.start at *
  cases hs : s.started <;> simp [hs] at h ⊢ <;> omega

theorem releaseBalanced_stop (s : CaptureSession) (h : releaseBalanced s) :
    releaseBalanced s.stop := by
  unfold releaseBalanced CaptureSession.stop at *
  cases hs : s.started <;> simp [hs] at h ⊢ <;> omega

theorem releaseBalanced_apply (s : CaptureSession) (h : releaseBalanced s) (op : LifecycleOp) :
    releaseBalanced (applyOp s op) := by
  cases op with
  | callStart => exact releaseBalanced_start s h
  | callStop => exact releaseBalanced_stop s h

theorem releaseBalanced_foldl (ops : List LifecycleOp) (s : CaptureSession)
    (h : releaseBalanced s) : releaseBalanced (ops.foldl applyOp s) := by
  induction ops generalizing s with
  | nil => exact h
  | cons op ops ih => exact ih _ (releaseBalanced_apply s h op)

theorem stop_started (s : CaptureSession) : s.stop.started = false := by
  unfold CaptureSession.stop
  cases hs : s.started <;> simp [hs]

theorem stop_stops_eq (s : CaptureSession) (h : releaseBalanced s) :
    s.stop.pipelineStops = s.stop.pipelineStarts.length := by
  unfold releaseBalanced at h
  unfold CaptureSession.stop
  cases hs : s.started <;> simp [hs] at h ⊢ <;> omega

theorem render_sequence_eq (r : OverlayRenderer) :
    ∀ (framesL : List Frame) (poses : List (Option PoseResult)),
      (∀ q : PoseResult, some q ∈ poses → q.landmarks ≠ []) →
      r.render_sequence framesL poses
        = (List.zipWith (fun f p => p.elim f (fun q => annotatedFrame r f q)) framesL poses,
            none)
  | [], poses, _h => by cases poses <;> simp [OverlayRenderer.render_sequence]
  | _f :: _fs, [], _h => by simp [OverlayRenderer.render_sequence]
  | f :: fs, none :: ps, h => by
    have hrec := render_sequence_eq r fs ps (fun q hq => h q (List.mem_cons_of_mem _ hq))
    simp [OverlayRenderer.render_sequence, hrec]
  | f :: fs, some q :: ps, h => by
    have hq : q.landmarks ≠ [] := h q (List.mem_cons_self _ _)
    have hr := render_eq r f q hq
    have hrec := render_sequence_eq r fs ps (fun q hq => h q (List.mem_cons_of_mem _ hq))
    simp [OverlayRenderer.render_sequence, hr, hrec]

/- Claim theorems. -/

/-- C1, amended: for every pose with at least one landmark, render completes
without error, returning the annotated copy and the untouched input frame; the
appended line calls are exactly the fixed edges whose two endpoint indices both
lie below the landmark count, so every edge with an out-of-range endpoint is
omitted. With zero landmarks the coords computation raises instead, so the
original claim does not extend to the empty case. -/
theorem c1_render_tolerates_short_landmarks (r : OverlayRenderer) (frame : Frame)
    (pose : PoseResult) (h : 1 ≤ pose.landmarks.length) :
    r.render frame pose = Except.ok (annotatedFrame r frame pose, frame)
    ∧ (annotatedFrame r frame pose).ops = frame.ops
        ++ (defaultPairs.filter (fun se =>
              decide (se.1 < pose.landmarks.length ∧ se.2 < pose.landmarks.length))).map
            (fun se => DrawOp.line ((pixelCoords pose).getD se.1 (0, 0))
              ((pixelCoords pose).getD se.2 (0, 0)) r.colors.skeleton 2)
        ++ circleOpsFor r.colors.joints (pixelCoords pose) := by
  have hne : pose.landmarks ≠ [] := List.length_pos.mp h
  refine ⟨render_eq r frame pose hne, ?_⟩
  simp [annotatedFrame, skeletonLineOps, jointCircleOps, lineOpsFor, pixelCoords_length]

/-- C1 witness: a pose with two landmarks, fewer than any edge endpoint index. -/
theorem c1_witness :
    1 ≤ exPose1.landmarks.length
    ∧ defaultRenderer.render exFrameA exPose1
        = Except.ok (annotatedFrame defaultRenderer exFrameA exPose1, exFrameA) :=
  ⟨by decide, (c1_render_tolerates_short_landmarks defaultRenderer exFrameA exPose1 (by decide)).1⟩

/-- C1 counterexample: on a pose with zero landmarks, render does not complete;
the coords computation raises the numpy IndexError, so the claim fails for the
landmark count zero it explicitly includes. -/
theorem c1_counterexample :
    ¬ ∃ out : Frame × Frame,
      defaultRenderer.render exFrameA emptyPoseA = Except.ok out := by
  intro hout
  obtain ⟨out, hout⟩ := hout
  rw [show defaultRenderer.render exFrameA emptyPoseA = Except.error oneDimErrMsg from rfl]
    at hout
  exact Except.noConfusion hout

/-- C2, amended: for every CalibrationData whose extrinsics is present, saving and
loading round-trips the full value, in particular camera_matrix and
distortion_coeffs. When extrinsics is None, save stores it as a pickled object
entry and load raises the ValueError, so the original claim fails in that case. -/
theorem c2_calibration_roundtrip (d : CalibrationData) (m : NpMatrix)
    (h : d.extrinsics = some m) :
    load_calibration (save_calibration d) = Except.ok d := by
  obtain ⟨cm, dc, ex⟩ := d
  change ex = some m at h
  subst h
  rfl

/-- C2 witness: a concrete calibration with extrinsics present round-trips. -/
theorem c2_witness :
    exCalib.extrinsics = some matE
    ∧ load_calibration (save_calibration exCalib) = Except.ok exCalib :=
  ⟨rfl, c2_calibration_roundtrip exCalib matE rfl⟩

/-- C2 counterexample: with extrinsics absent, the load of the saved archive does
not return a CalibrationData at all; reading the pickled extrinsics entry raises. -/
theorem c2_counterexample :
    ¬ ∃ out : CalibrationData,
      load_calibration (save_calibration cexCalib) = Except.ok out := by
  intro hout
  obtain ⟨out, hout⟩ := hout
  rw [show load_calibration (save_calibration cexCalib) = Except.error pickleErrMsg from rfl]
    at hout
  exact Except.noConfusion hout

/-- C3: on any session that is not started, whether never started or stopped,
frames fails with the lifecycle RuntimeError and yields no frame pair. -/
theorem c3_frames_before_start_error {α : Type} (s : CaptureSession)
    (alignProcess : FrameSet α → FrameSet α) (deliveries : List (FrameSet α))
    (h : s.started = false) :
    s.framesFrom alignProcess deliveries = Except.error lifecycleErrMsg := by
  simp [CaptureSession.framesFrom, h]

/-- C3 witness: a session that was started and then stopped. -/
theorem c3_witness :
    stoppedS.started = false
    ∧ stoppedS.framesFrom (id : FrameSet ℕ → FrameSet ℕ) exDeliveries
        = Except.error lifecycleErrMsg :=
  ⟨rfl, c3_frames_before_start_error stoppedS id exDeliveries rfl⟩

/-- C4, amended: for every input frame and every pose with at least one landmark,
render returns a new annotated frame with the same base buffer and hence the same
pixel dimensions, and the input frame is returned unmodified. With zero landmarks
render raises instead, so the original claim fails for that pose. -/
theorem c4_render_fresh_frame_same_dims (r : OverlayRenderer) (frame : Frame)
    (pose : PoseResult) (h : pose.landmarks ≠ []) :
    r.render frame pose = Except.ok (annotatedFrame r frame pose, frame)
    ∧ (annotatedFrame r frame pose).height = frame.height
    ∧ (annotatedFrame r frame pose).width = frame.width
    ∧ (annotatedFrame r frame pose).base = frame.base :=
  ⟨render_eq r frame pose h, rfl, rfl, rfl⟩

/-- C4 witness: a concrete frame and a one-landmark pose. -/
theorem c4_witness :
    exPose1.landmarks ≠ []
    ∧ defaultRenderer.render exFrameB exPose1
        = Except.ok (annotatedFrame defaultRenderer exFrameB exPose1, exFrameB)
    ∧ (annotatedFrame defaultRenderer exFrameB exPose1).height = exFrameB.height :=
  ⟨by decide,
    (c4_render_fresh_frame_same_dims defaultRenderer exFrameB exPose1 (by decide)).1,
    (c4_render_fresh_frame_same_dims defaultRenderer exFrameB exPose1 (by decide)).2.1⟩

/-- C4 counterexample: with a zero-landmark pose, render raises and returns no
annotated frame, so the universally quantified claim fails. -/
theorem c4_counterexample :
    ¬ ∃ out : Frame × Frame,
      defaultRenderer.render exFrameB emptyPoseB = Except.ok out := by
  intro hout
  obtain ⟨out, hout⟩ := hout
  rw [show defaultRenderer.render exFrameB emptyPoseB = Except.error oneDimErrMsg from rfl]
    at hout
  exact Except.noConfusion hout

/-- C5, amended: when every present pose has at least one landmark,
render_sequence raises nothing and yields exactly the zip of the two sequences,
truncated to the shorter one: the input frame itself at every None position and
the render result elsewhere. A present pose with zero landmarks makes render
raise, aborting the generator early, so the original unconditional claim fails. -/
theorem c5_render_sequence_zip (r : OverlayRenderer) (framesL : List Frame)
    (poses : List (Option PoseResult))
    (h : ∀ q : PoseResult, some q ∈ poses → q.landmarks ≠ []) :
    r.render_sequence framesL poses
      = (List.zipWith (fun f p => p.elim f (fun q => annotatedFrame r f q)) framesL poses,
          none)
    ∧ (List.zipWith (fun f p => p.elim f (fun q => annotatedFrame r f q)) framesL poses).length
        = min framesL.length poses.length
    ∧ ∀ (f : Frame) (q : PoseResult), some q ∈ poses →
        r.render f q = Except.ok (annotatedFrame r f q, f) :=
  ⟨render_sequence_eq r framesL poses h, by simp,
    fun f q hq => render_eq r f q (h q hq)⟩

/-- C5 witness: two frames against one present pose and one absent pose. -/
theorem c5_witness :
    (∀ q : PoseResult, some q ∈ [some exPose1, (none : Option PoseResult)] → q.landmarks ≠ [])
    ∧ defaultRenderer.render_sequence [exFrameA, exFrameB] [some exPose1, none]
        = (List.zipWith (fun f p => p.elim f (fun q => annotatedFrame defaultRenderer f q))
            [exFrameA, exFrameB] [some exPose1, none], none) := by
  have hh : ∀ q : PoseResult,
      some q ∈ [some exPose1, (none : Option PoseResult)] → q.landmarks ≠ [] := by
    intro q hq
    simp at hq
    subst hq
    decide
  exact ⟨hh, (c5_render_sequence_zip defaultRenderer [exFrameA, exFrameB]
    [some exPose1, none] hh).1⟩

/-- C5 counterexample: one frame paired with one present zero-landmark pose yields
zero outputs instead of the min length one, because render raises. -/
theorem c5_counterexample :
    (defaultRenderer.render_sequence [exFrameA] [some emptyPoseB]).1.length
      ≠ min [exFrameA].length [some emptyPoseB].length := by
  decide

/-- C6: on any started session, frames yields, in delivery order, exactly the
aligned pairs whose two components are both present; every yielded pair comes
from a delivered frameset whose aligned color and depth components are both
present, so a pair with a missing component is never yielded. -/
theorem c6_frames_complete_pairs {α : Type} (s : CaptureSession)
    (alignProcess : FrameSet α → FrameSet α) (deliveries : List (FrameSet α))
    (h : s.started = true) :
    s.framesFrom alignProcess deliveries
      = Except.ok (deliveries.filterMap (fun fs => completePair (processAligned s alignProcess fs)))
    ∧ ∀ cd ∈ deliveries.filterMap (fun fs => completePair (processAligned s alignProcess fs)),
        ∃ fs, fs ∈ deliveries
          ∧ (processAligned s alignProcess fs).colorFrame = some cd.1
          ∧ (processAligned s alignProcess fs).depthFrame = some cd.2 := by
  constructor
  · simp [CaptureSession.framesFrom, h]
  · intro cd hcd
    rw [List.mem_filterMap] at hcd
    obtain ⟨fs, hfs, hc⟩ := hcd
    obtain ⟨h1, h2⟩ := completePair_eq_some _ _ hc
    exact ⟨fs, hfs, h1, h2⟩

/-- C6 witness: three deliveries of which two lack a component; exactly the
complete pair is yielded. -/
theorem c6_witness :
    startedS.started = true
    ∧ startedS.framesFrom (id : FrameSet ℕ → FrameSet ℕ) exDeliveries = Except.ok [(1, 2)] := by
  refine ⟨rfl, ?_⟩
  rw [(c6_frames_complete_pairs startedS (id : FrameSet ℕ → FrameSet ℕ) exDeliveries rfl).1]
  rfl

/-- C7: start on an already started session is the identity, as is stop on a
session that is not started; consequently a second start never reopens the
device and a second stop never releases it again. -/
theorem c7_start_stop_idempotent (s : CaptureSession) :
    (s.started = true → s.start = s)
    ∧ (s.started = false → s.stop = s)
    ∧ s.start.start = s.start
    ∧ s.stop.stop = s.stop := by
  refine ⟨?_, ?_, ?_, ?_⟩
  · intro h
    simp [CaptureSession.start, h]
  · intro h
    simp [CaptureSession.stop, h]
  · cases hs : s.started <;> simp [CaptureSession.start, hs]
  · cases hs : s.started <;> simp [CaptureSession.stop, hs]

/-- C7 witness: a started session and a fresh session. -/
theorem c7_witness : startedS.start = startedS ∧ freshS.stop = freshS :=
  ⟨(c7_start_stop_idempotent startedS).1 rfl, (c7_start_stop_idempotent freshS).2.1 rfl⟩

/-- C8: leaving the with-scope always runs stop: the session ends not started,
every recorded device open is matched by exactly one release, a body without
lifecycle calls produces exactly one open and one release, and the cleanup path
is the same whether the body finished normally or raised. -/
theorem c8_scoped_stop_exactly_once (c : CaptureConfig) (bodyOps : List LifecycleOp)
    (outcome : ScopeExit) :
    (withSession (newSession c) bodyOps outcome).started = false
    ∧ (withSession (newSession c) bodyOps outcome).pipelineStops
        = (withSession (newSession c) bodyOps outcome).pipelineStarts.length
    ∧ (withSession (newSession c) [] outcome).pipelineStops = 1
    ∧ (withSession (newSession c) [] outcome).pipelineStarts.length = 1
    ∧ withSession (newSession c) bodyOps ScopeExit.normal
        = withSession (newSession c) bodyOps ScopeExit.raised := by
  have hb : releaseBalanced (List.foldl applyOp (newSession c).start bodyOps) :=
    releaseBalanced_foldl bodyOps _ (releaseBalanced_start _ (releaseBalanced_new c))
  exact ⟨stop_started _, stop_stops_eq _ hb, rfl, rfl, rfl⟩

/-- C9: whenever estimate returns a result, the recorded image_height and
image_width are the row and column counts of the input frame, so the coords that
render computes from that result scale each normalized landmark by the frame
dimensions themselves. -/
theorem c9_estimate_records_frame_dims (e : PoseEstimator) (frame : Frame)
    (res : PoseResult) (h : e.estimate frame = some res) :
    res.image_height = frame.height
    ∧ res.image_width = frame.width
    ∧ (res.landmarks ≠ [] → renderCoords res
        = Except.ok (res.landmarks.map (fun lm =>
            (npTrunc (lm.x * (frame.width : ℚ)), npTrunc (lm.y * (frame.height : ℚ)))))) := by
  unfold PoseEstimator.estimate at h
  cases hm : e.model (cvtColorBGR2RGB frame) with
  | none =>
    rw [hm] at h
    exact absurd h (by simp)
  | some lms =>
    rw [hm] at h
    have hres : res
        = { landmarks := lms, image_height := frame.height, image_width := frame.width } := by
      injection h with h2
      exact h2.symm
    subst hres
    refine ⟨rfl, rfl, ?_⟩
    intro hne
    rw [renderCoords_ok _ hne]
    rfl

/-- C9 witness: an estimator whose model always reports one landmark. -/
theorem c9_witness :
    exEstimator.estimate exFrameC = some exPoseC
    ∧ exPoseC.image_height = exFrameC.height
    ∧ exPoseC.image_width = exFrameC.width :=
  ⟨rfl, (c9_estimate_records_frame_dims exEstimator exFrameC exPoseC rfl).1,
    (c9_estimate_records_frame_dims exEstimator exFrameC exPoseC rfl).2.1⟩

/-- C10: the saved archive always contains all three entries, extrinsics
included even when its value is None, and reading the extrinsics entry of such an
archive never takes the missing-key branch that returns the default None. -/
theorem c10_save_always_writes_extrinsics (d : CalibrationData) :
    npzHasKey (save_calibration d) "camera_matrix" = true
    ∧ npzHasKey (save_calibration d) "distortion_coeffs" = true
    ∧ npzHasKey (save_calibration d) "extrinsics" = true
    ∧ npzGet (save_calibration d) "extrinsics" ≠ Except.ok none := by
  obtain ⟨cm, dc, ex⟩ := d
  cases ex with
  | none =>
    refine ⟨rfl, rfl, rfl, ?_⟩
    intro hcontra
    rw [show npzGet (save_calibration ⟨cm, dc, none⟩) "extrinsics"
          = Except.error pickleErrMsg from rfl] at hcontra
    exact Except.noConfusion hcontra
  | some m =>
    refine ⟨rfl, rfl, rfl, ?_⟩
    intro hcontra
    rw [show npzGet (save_calibration ⟨cm, dc, some m⟩) "extrinsics"
          = Except.ok (some m) from rfl] at hcontra
    simp at hcontra

end Mirror
